import Mathlib

/-!
# Verification of the USGS `search_api` location-search engine

Shallow embedding of the two engine implementations in this repository:

* `dist/geocoder.js` (namespace `Gc` below): input normalization
  (`gc._locate.parseInput`), coordinate parsing, candidate validation
  (`gc._locate.getFeature`), the resolution cycle (`gc._locate`) and
  `control.setOptions`.
* the legacy `search_api.js` implementation (namespace `SearchApi` below):
  term/state filtering (`o._getSearchTermStates`) and the keyup resolution
  dispatch with its negative-cache short-circuit.

Numbers are modelled as exact rationals (the JavaScript engine computes in
IEEE doubles; every concrete value appearing in the theorems below is far
from any rounding boundary, and the engine rounds all surfaced coordinates
to 6 decimal places).  JavaScript string primitives (`trim`, `toUpperCase`,
`Number`, `parseFloat`, regex replacements) are embedded character-by-
character in the `Js` namespace, restricted to the ASCII inputs the engine
produces.
-/

namespace Js

/-- JavaScript whitespace (`\s`) restricted to the characters that can occur
in this engine's data: space, tab, LF, VT, FF, CR, NBSP. -/
def isWs (c : Char) : Bool :=
  c = ' ' || c = '\t' || c = '\n' || c.toNat = 11 || c.toNat = 12 ||
  c = '\r' || c.toNat = 160

/-- `String.prototype.trim` on a character list: strip whitespace from both
ends. -/
def trimList (l : List Char) : List Char :=
  ((l.dropWhile isWs).reverse.dropWhile isWs).reverse

/-- `String.prototype.trim`. -/
def trim (s : String) : String :=
  (trimList s.toList).asString

/-- `String.prototype.toUpperCase`, ASCII fragment (the engine only feeds it
keyboard input and service fields; non-ASCII letters are removed or replaced
by the surrounding normalizers). -/
def toUpper (s : String) : String :=
  (s.toList.map Char.toUpper).asString

/-- `String.prototype.toLowerCase`, ASCII fragment. -/
def toLower (s : String) : String :=
  (s.toList.map Char.toLower).asString

/-- Is `pat` a prefix of `l`? (Boolean, for substring search.) -/
def isPrefOf : List Char → List Char → Bool
  | [], _ => true
  | _ :: _, [] => false
  | a :: as, b :: bs => a = b && isPrefOf as bs

/-- `String.prototype.includes`: substring containment. -/
def containsSub (hay pat : List Char) : Bool :=
  match hay with
  | [] => isPrefOf pat []
  | _ :: t => isPrefOf pat hay || containsSub t pat

/-- `hay.includes(pat)` on strings. -/
def includes (hay pat : String) : Bool :=
  containsSub hay.toList pat.toList

/-- `Math.sign`, coerced through `Number`. -/
def sign (q : ℚ) : ℚ :=
  if 0 < q then 1 else if q < 0 then -1 else 0

/-- `Math.round`: round to nearest, ties toward +infinity — exactly
Mathlib's `round` (`⌊x + 1/2⌋`). -/
def jsRound (q : ℚ) : ℤ := round q

/-- `Number(x.toFixed(n))`: round to `n` decimal places.  `toFixed` picks
the closest `k / 10^n` and on a tie the larger `k`, which again is
Mathlib's `round` after scaling. -/
def toFixedNum (n : ℕ) (q : ℚ) : ℚ :=
  (round (q * 10 ^ n) : ℚ) / 10 ^ n

/-- Value of a digit character. -/
def digitVal (c : Char) : ℕ := c.toNat - '0'.toNat

/-- Hex digit test. -/
def isHexDigit (c : Char) : Bool :=
  c.isDigit || ('a' ≤ c && c ≤ 'f') || ('A' ≤ c && c ≤ 'F')

/-- Hex digit value. -/
def hexVal (c : Char) : ℕ :=
  if c.isDigit then digitVal c
  else if 'a' ≤ c && c ≤ 'f' then c.toNat - 'a'.toNat + 10
  else c.toNat - 'A'.toNat + 10

/-- Accumulate a digit list in the given base. -/
def digitsVal (base : ℕ) (val : Char → ℕ) (l : List Char) : ℕ :=
  l.foldl (fun acc c => base * acc + val c) 0

/-- Split an optional leading sign, returning the sign as a rational. -/
def signSplit (l : List Char) : ℚ × List Char :=
  match l with
  | '+' :: r => (1, r)
  | '-' :: r => (-1, r)
  | r => (1, r)

/-- Decimal literal part of JavaScript `Number(string)`:
`[+-]? digits ['.' digits] [('e'|'E') [+-]? digits]`, requiring at least one
mantissa digit.  Returns `none` for NaN.  (`Infinity` is deliberately not
recognized: the engine upper-cases its input first and the grammar is
case-sensitive, so `"INFINITY"` is NaN.) -/
def numDec (l : List Char) : Option ℚ :=
  let (sgn, l1) := signSplit l
  let ip := l1.takeWhile Char.isDigit
  let l2 := l1.dropWhile Char.isDigit
  let (fp, l3) :=
    match l2 with
    | '.' :: r => (r.takeWhile Char.isDigit, r.dropWhile Char.isDigit)
    | _ => ([], l2)
  if ip.isEmpty && fp.isEmpty then none
  else
    let mant : ℚ :=
      sgn * ((digitsVal 10 digitVal ip : ℚ) +
             (digitsVal 10 digitVal fp : ℚ) / 10 ^ fp.length)
    match l3 with
    | [] => some mant
    | e :: r =>
      if e = 'e' || e = 'E' then
        let (esgn, r1) := signSplit r
        let ds := r1.takeWhile Char.isDigit
        let rest := r1.dropWhile Char.isDigit
        if ds.isEmpty || !rest.isEmpty then none
        else
          let ex : ℤ := (if esgn = 1 then 1 else -1) * (digitsVal 10 digitVal ds : ℕ)
          some (mant * (10 : ℚ) ^ ex)
      else none

/-- A non-decimal (`0x`/`0o`/`0b`) integer literal body: all digits must be
valid for the base. -/
def numRadix (base : ℕ) (ok : Char → Bool) (val : Char → ℕ) (l : List Char) :
    Option ℚ :=
  if l.isEmpty then none
  else if l.all ok then some (digitsVal base val l : ℚ)
  else none

/-- JavaScript `Number(string)` (NaN as `none`), on the ASCII fragment. -/
def jsNum (s : String) : Option ℚ :=
  match trimList s.toList with
  | [] => some 0
  | '0' :: c :: rest =>
    if c = 'x' || c = 'X' then numRadix 16 isHexDigit hexVal rest
    else if c = 'o' || c = 'O' then
      numRadix 8 (fun d => '0' ≤ d && d ≤ '7') digitVal rest
    else if c = 'b' || c = 'B' then
      numRadix 2 (fun d => d = '0' || d = '1') digitVal rest
    else numDec ('0' :: c :: rest)
  | l => numDec l

/-- JavaScript `parseFloat(string)`: longest decimal-literal prefix after
leading whitespace; NaN (`none`) when no mantissa digit is found. -/
def jsParseFloat (s : String) : Option ℚ :=
  let l := s.toList.dropWhile isWs
  let (sgn, l1) := signSplit l
  let ip := l1.takeWhile Char.isDigit
  let l2 := l1.dropWhile Char.isDigit
  let (fp, l3) :=
    match l2 with
    | '.' :: r => (r.takeWhile Char.isDigit, r.dropWhile Char.isDigit)
    | _ => ([], l2)
  if ip.isEmpty && fp.isEmpty then none
  else
    let mant : ℚ :=
      sgn * ((digitsVal 10 digitVal ip : ℚ) +
             (digitsVal 10 digitVal fp : ℚ) / 10 ^ fp.length)
    let ex : ℤ :=
      match l3 with
      | e :: r =>
        if e = 'e' || e = 'E' then
          let (esgn, r1) := signSplit r
          let ds := r1.takeWhile Char.isDigit
          if ds.isEmpty then 0
          else (if esgn = 1 then 1 else -1) * (digitsVal 10 digitVal ds : ℕ)
        else 0
      | [] => 0
    some (mant * (10 : ℚ) ^ ex)


/-- JS `String.prototype.split` with a single-character separator, on
character lists (structurally recursive so that concrete instances
compute). -/
def splitChar (sep : Char) : List Char → List (List Char)
  | [] => [[]]
  | c :: cs =>
    if c = sep then [] :: splitChar sep cs
    else
      match splitChar sep cs with
      | h :: t => (c :: h) :: t
      | [] => [[c]]

/-- `s.split(sep)` for a one-character separator (what the engine uses:
`split(' ')`, `split(',')`, `split(/\s/)` on space-collapsed terms). -/
def split (sep : Char) (s : String) : List String :=
  (splitChar sep s.toList).map List.asString

/-- JS object-as-dictionary read: first binding wins is irrelevant because
keys are unique; returns `none` when the key is absent (`key in obj` false). -/
def dictGet {α : Type} (c : List (String × α)) (k : String) : Option α :=
  (c.find? (fun kv => kv.1 = k)).map (fun kv => kv.2)

/-- JS object-as-dictionary write `obj[key] = v`: overwrite in place, or
append when absent. -/
def dictSet {α : Type} (c : List (String × α)) (k : String) (v : α) :
    List (String × α) :=
  if (c.find? (fun kv => kv.1 = k)).isSome then
    c.map (fun kv => if kv.1 = k then (k, v) else kv)
  else c ++ [(k, v)]

end Js

namespace Gc

/-!
## `dist/geocoder.js` — the v1.0 engine

`gc._config` constants used by the resolution logic. -/

/-- `gc._config.minScore`: score threshold (secondary-service candidates
scoring below this are rejected). -/
def minScore : ℚ := 80

/-- `gc._config.nCoordDecimals`: decimal places for reported coordinates. -/
def nCoordDecimals : ℕ := 6

/-- Round a coordinate to `nCoordDecimals` places
(`Number(x.toFixed(gc._config.nCoordDecimals))`). -/
def roundCoord (q : ℚ) : ℚ := Js.toFixedNum nCoordDecimals q

/-- Character class kept by the term normalizer: `[A-Z0-9*\-.]`. -/
def keepChar (c : Char) : Bool :=
  ('A' ≤ c && c ≤ 'Z') || ('0' ≤ c && c ≤ '9') || c = '*' || c = '-' || c = '.'

/-- `replace(/[^A-Z0-9\*\-\.]/g, ' ')`: every character outside the kept
class becomes a space. -/
def spaceify (l : List Char) : List Char :=
  l.map (fun c => if keepChar c then c else ' ')

/-- Worker for whitespace collapsing: `p` records whether the previous kept
character was part of a whitespace run. -/
def collapseGo : Bool → List Char → List Char
  | _, [] => []
  | p, c :: cs =>
    if c = ' ' then (if p then collapseGo true cs else ' ' :: collapseGo true cs)
    else c :: collapseGo false cs

/-- `replace(/\s+/gu, ' ')`: collapse each whitespace run to one space.
After `spaceify` the only whitespace character is `' '`. -/
def collapseSp (l : List Char) : List Char := collapseGo false l

/-- `replace(/^ST /u, 'SAINT ')`: expand a leading `"ST "` (anchored at
position 0). -/
def expandST : List Char → List Char
  | 'S' :: 'T' :: ' ' :: rest => 'S' :: 'A' :: 'I' :: 'N' :: 'T' :: ' ' :: rest
  | l => l

/-- The first three normalizer stages (uppercase, spaceify, collapse),
shared by the `replace(/^ST /u, ...)` and `trim()` orderings below. -/
def preTrim (s : String) : List Char :=
  collapseSp (spaceify (s.toList.map Char.toUpper))

/-- The term normalizer of `gc._locate.parseInput` (source order:
uppercase, spaceify, collapse, expand leading `"ST "`, then trim). -/
def normalizeTerm (s : String) : String :=
  (Js.trimList (expandST (preTrim s))).asString

/-- Modelled from the spec's words for the refinement claim C9: the same
five stages but with the trim *before* the `"ST "` expansion
("collapses runs of whitespace, trims, expands a leading ST token"). -/
def specNormalizeTerm (s : String) : String :=
  (expandST (Js.trimList (preTrim s))).asString

/-- The 48 contiguous states (source constant `lower48`). -/
def lower48 : String :=
  "AL AZ AR CA CO CT DE FL GA ID IL IN IA KS KY LA ME MD MA MI MN MS MO MT NE NV NH NJ NM NY NC ND OH OK OR PA RI SC SD TN TX UT VT VA WA WV WI WY"

/-- `replace(/\s+/ug, ',')`: each whitespace run becomes one comma. -/
def wsToCommaGo : Bool → List Char → List Char
  | _, [] => []
  | p, c :: cs =>
    if c = ' ' then (if p then wsToCommaGo true cs else ',' :: wsToCommaGo true cs)
    else c :: wsToCommaGo false cs

/-- String version of `replace(/\s+/ug, ',')` (inputs here contain only
`' '` as whitespace). -/
def wsToComma (s : String) : String := (wsToCommaGo false s.toList).asString

/-- The sequential keyword expansion of `input.states` in `parseInput`
(`'48'`, `'50'`, `'usgs'`, `'all'` shortcuts), applied to the upper-cased
option value. -/
def expandStates (s0 : String) : String :=
  let s1 := if s0 = "48" then lower48 ++ " DC" else s0
  let s2 := if s1 = "50" then lower48 ++ " AK HI DC" else s1
  let s3 := if s2 = "USGS" then lower48 ++ " AK HI DC GU PR VI" else s2
  let s4 := if s3 = "ALL" then lower48 ++ " AK HI DC GU PR VI AS FM MH MP PW UM" else s3
  wsToComma s4

/-- `NS` hemisphere lookup (`{N: 1, S: -1}`); `none` is JS `undefined`,
which propagates to NaN under multiplication. -/
def NS : String → Option ℚ
  | "N" => some 1
  | "S" => some (-1)
  | _ => none

/-- `EW` hemisphere lookup (`{E: 1, W: -1}`). -/
def EW : String → Option ℚ
  | "E" => some 1
  | "W" => some (-1)
  | _ => none

/-- `dms2dec`: `Math.sign(d) * (Number(d) + Number(m)/60 + Number(s)/3600)`
on already-converted numbers. -/
def dms2dec (d m s : ℚ) : ℚ :=
  Js.sign d * (d + m / 60 + s / 3600)

/-- Modelled from the spec's words for claim C3: the documented conversion
`decimal = sign(degrees) × (|degrees| + minutes/60 + seconds/3600)`. -/
def specDms2dec (d m s : ℚ) : ℚ :=
  Js.sign d * (|d| + m / 60 + s / 3600)

/-- `dms2dec` lifted to NaN-propagating (`Option`) arguments, exactly as the
source applies it to raw tokens via `Number(...)`. -/
def dms2decN (d m s : Option ℚ) : Option ℚ :=
  match d, m, s with
  | some d, some m, some s => some (dms2dec d m s)
  | _, _, _ => none

/-- NaN-propagating product (`undefined * x` and `NaN * x` are NaN). -/
def omul (a b : Option ℚ) : Option ℚ :=
  match a, b with
  | some a, some b => some (a * b)
  | _, _ => none

/-- final rounding step: `input.latlon.map(x => Number(x.toFixed(6)))` after
the NaN validity check. -/
def finishLatlon (la lo : Option ℚ) : Option (ℚ × ℚ) :=
  match la, lo with
  | some la, some lo => some (roundCoord la, roundCoord lo)
  | _, _ => none

/-- The lat-lon recognizer of `gc._locate.parseInput`, over the
space-separated parts of the normalized term.  Supports exactly the
8 / 6 / 4 / 2 token patterns; anything else (including NaN anywhere or an
unrecognized hemisphere token) is `none` (`input.latlon = undefined`). -/
def latlonOfParts : List String → Option (ℚ × ℚ)
  | [d1, m1, s1, ns, d2, m2, s2, ew] =>
    finishLatlon (omul (NS ns) (dms2decN (Js.jsNum d1) (Js.jsNum m1) (Js.jsNum s1)))
                 (omul (EW ew) (dms2decN (Js.jsNum d2) (Js.jsNum m2) (Js.jsNum s2)))
  | [d1, m1, s1, d2, m2, s2] =>
    finishLatlon (dms2decN (Js.jsNum d1) (Js.jsNum m1) (Js.jsNum s1))
                 ((dms2decN (Js.jsNum d2) (Js.jsNum m2) (Js.jsNum s2)).map (fun x => -|x|))
  | [a, ns, b, ew] =>
    finishLatlon (omul (NS ns) (Js.jsNum a)) (omul (EW ew) (Js.jsNum b))
  | [a, b] =>
    finishLatlon (Js.jsNum a) ((Js.jsNum b).map (fun x => -|x|))
  | _ => none

/-- Engine options relevant to the resolution logic (`gc.create` options
`bounds`, `states`, `include`, `minCharacters`; the purely visual options
play no part in resolution). `bounds` is the flattened
`[latMin, lonMin, latMax, lonMax]`. -/
structure Options where
  bounds : Option (ℚ × ℚ × ℚ × ℚ)
  states : Option String
  include' : String
  minCharacters : ℕ
deriving Repr, DecidableEq

/-- The default options (subset used by the resolution logic). -/
def defaultEngineOptions : Options :=
  { bounds := none, states := none, include' := "gnis postal state", minCharacters := 2 }

/-- Result of `gc._locate.parseInput`: normalized term, resolved state CSV
(`none` is JS `undefined`), parsed coordinate, and cache key. -/
structure ParsedInput where
  term : String
  states : Option String
  latlon : Option (ℚ × ℚ)
  cacheKey : String
deriving Repr, DecidableEq

/-- `input.term + '|' + input.states` — JS stringifies `undefined`. -/
def cacheKeyOf (term : String) (states : Option String) : String :=
  term ++ "|" ++ (match states with | none => "undefined" | some s => s)

/-- `gc._locate.parseInput`: term normalization, state-filter resolution
(keyword expansion, trailing 2-letter state extraction), cache key, and
coordinate parsing.  Note the source computes `parts` from the term
*before* the state extraction, so the lat-lon check sees the state token. -/
def parseInput (opts : Options) (raw : String) : ParsedInput :=
  let term0 := normalizeTerm raw
  let parts := Js.split ' ' term0
  -- `(control.options.states || 'ALL').toUpperCase()` plus keyword shortcuts
  let statesRaw := match opts.states with
    | none => "ALL"
    | some s => if s = "" then "ALL" else s
  let statesCsv := expandStates (Js.toUpper statesRaw)
  let lastPart := parts.getLastD ""
  let extracted := parts.length > 1 && (Js.split ',' statesCsv).contains lastPart
  let term := if extracted then String.intercalate " " (parts.dropLast) else term0
  let states : Option String :=
    if extracted then some lastPart
    else if opts.states = none then none
    else some statesCsv
  { term := term
    states := states
    latlon := latlonOfParts parts
    cacheKey := cacheKeyOf term states }

end Gc

namespace Gc

/-!
### Candidate validation — `gc._locate.getFeature`

Raw provider records are modelled with typed optional fields (`none` is a
missing/`undefined`/unparseable property; the services deliver JSON numbers
for the numeric fields, so the `parseFloat` coercion is the identity on
them and NaN exactly when the field is absent). -/

/-- A raw candidate property object, as passed to `gc._locate.getFeature`.
`Typ` is the source's `Type` property (a Lean keyword). -/
structure RawProps where
  County : Option String := none
  GnisId : Option ℚ := none
  Label : Option String := none
  Latitude : Option ℚ := none
  LatitudeMax : Option ℚ := none
  LatitudeMin : Option ℚ := none
  Longitude : Option ℚ := none
  LongitudeMax : Option ℚ := none
  LongitudeMin : Option ℚ := none
  Name : Option String := none
  Score : Option ℚ := none
  Source : Option String := none
  State : Option String := none
  Typ : Option String := none
deriving Repr, DecidableEq

/-- Validated feature properties (the `properties` of the GeoJSON feature
`getFeature` returns; its `geometry` is the point
`[Longitude, Latitude]` and its `Bounds` entry is
`[[LatitudeMin, LongitudeMin], [LatitudeMax, LongitudeMax]]`, both derived
from these fields and carrying no extra information). -/
structure FeatProps where
  County : String
  GnisId : Option ℚ
  Label : String
  Latitude : ℚ
  LatitudeMax : ℚ
  LatitudeMin : ℚ
  Longitude : ℚ
  LongitudeMax : ℚ
  LongitudeMin : ℚ
  Name : String
  Score : ℤ
  Source : String
  State : String
  Typ : String
deriving Repr, DecidableEq

/-- Replace the first occurrence of `pat` (non-empty) in `l` by `repl` —
JS `String.prototype.replace` with a string pattern. -/
def replaceFirst (pat repl : List Char) : List Char → List Char
  | [] => []
  | c :: cs =>
    if Js.isPrefOf pat (c :: cs) && !pat.isEmpty then
      repl ++ (c :: cs).drop pat.length
    else c :: replaceFirst pat repl cs

/-- Template-literal stringification of a possibly-`undefined` string. -/
def templateStr (o : Option String) : String := o.getD "undefined"

/-- The default for the `Label` field:
```${p.Name} (${[p.County, p.State].filter(s => s).join(' ')})`.replace(' ( )', '')``
— built from the *raw* property values. -/
def labelDefault (p : RawProps) : String :=
  let joined := String.intercalate " "
    (([p.County, p.State].filterMap id).filter (fun s => s ≠ ""))
  (replaceFirst " ( )".toList "".toList
    (templateStr p.Name ++ " (" ++ joined ++ ")").toList).asString

/-- `dBounds = 10 ** -gc._config.nCoordDecimals`. -/
def dBounds : ℚ := 1 / 1000000

/-- The validity part of `gc._locate.getFeature`: required fields present
(`Name`, `Source`, `Type` non-empty after trimming; `Latitude`,
`Longitude` numeric), `Latitude`/`Longitude` within the configured bounds,
`Score` (default 100) at least `minScore`, and the `State` rule
`s => !input.states || input.states.split(',').includes(s)` applied to the
trimmed (not yet upper-cased) value, with an absent `State` defaulting to
`''` *before* validation.  `inputStates` is `input.states` (CSV or
`undefined`). -/
def featValid (opts : Options) (inputStates : Option String) (p : RawProps) :
    Bool :=
  let b := opts.bounds.getD (-90, -180, 90, 180)
  let latMin := b.1
  let lonMin := b.2.1
  let latMax := b.2.2.1
  let lonMax := b.2.2.2
  let name := Js.trim (p.Name.getD "")
  let source := Js.trim (p.Source.getD "")
  let state := Js.trim (p.State.getD "")
  let typ := Js.trim (p.Typ.getD "")
  let score := p.Score.getD 100
  let latOk := match p.Latitude with
    | some v => decide (latMin ≤ v) && decide (v ≤ latMax)
    | none => false
  let lonOk := match p.Longitude with
    | some v => decide (lonMin ≤ v) && decide (v ≤ lonMax)
    | none => false
  let scoreOk := decide (minScore ≤ score)
  let stateOk := match inputStates with
    | none => true
    | some ss => decide (ss = "") || (Js.split ',' ss).contains state
  latOk && lonOk && scoreOk && stateOk &&
    name != "" && source != "" && typ != ""

/-- The formatted feature properties built by `getFeature` for a record
that passed validation (in the valid case the required numeric fields are
present, so the `getD 0` reads are exact). -/
def featBuild (p : RawProps) : FeatProps :=
  let label0 := Js.trim (p.Label.getD "")
  { County := Js.trim (p.County.getD "")
    GnisId := p.GnisId
    Label := if label0 = "" then labelDefault p else label0
    Latitude := roundCoord (p.Latitude.getD 0)
    LatitudeMax := roundCoord (p.LatitudeMax.getD (p.Latitude.getD 0 + dBounds))
    LatitudeMin := roundCoord (p.LatitudeMin.getD (p.Latitude.getD 0 - dBounds))
    Longitude := roundCoord (p.Longitude.getD 0)
    LongitudeMax := roundCoord (p.LongitudeMax.getD (p.Longitude.getD 0 + dBounds))
    LongitudeMin := roundCoord (p.LongitudeMin.getD (p.Longitude.getD 0 - dBounds))
    Name := Js.trim (p.Name.getD "")
    Score := Js.jsRound (p.Score.getD 100)
    Source := Js.trim (p.Source.getD "")
    State := Js.toUpper (Js.trim (p.State.getD ""))
    Typ := Js.trim (p.Typ.getD "") }

def getFeature (opts : Options) (inputStates : Option String) (p : RawProps) :
    Option FeatProps :=
  if featValid opts inputStates p then some (featBuild p) else none

/-!
### The resolution cycle — `gc._locate`
-/

/-- Decimal rendering of a 6-decimal-rounded coordinate, as JS
number-to-string produces for such values (trailing zeros dropped).  Only
ever applied to outputs of `roundCoord`. -/
def decStr6 (q : ℚ) : String :=
  let n : ℤ := (q * 1000000).floor
  let m : ℕ := n.natAbs
  let ip := m / 1000000
  let fp := m % 1000000
  let sgn := if n < 0 then "-" else ""
  if fp = 0 then sgn ++ toString ip
  else
    let ds := toString fp
    let padded := List.replicate (6 - ds.length) '0' ++ ds.toList
    sgn ++ toString ip ++ "." ++ ((padded.reverse.dropWhile (fun c => c = '0')).reverse).asString

/-- `` `Coordinate (${input.latlon.join(', ')})` `` — label and name of the
synthesized coordinate candidate. -/
def latlonLabel (la lo : ℚ) : String :=
  "Coordinate (" ++ decStr6 la ++ ", " ++ decStr6 lo ++ ")"

/-- The property object synthesized for a parsed coordinate in the
`if (input.latlon)` branch of `gc._locate`. -/
def latlonRaw (la lo : ℚ) : RawProps :=
  { Typ := some "Latitude-Longitude Coordinate"
    Label := some (latlonLabel la lo)
    Name := some (latlonLabel la lo)
    Latitude := some la
    Longitude := some lo
    Source := some "latlon" }

/-- Primary (API) service outcome for one cycle: network / parse failure,
a handled `{error: ...}` response, a non-array response, or a JSON array of
raw candidate records. -/
inductive PrimaryResp
  | netErr
  | errObj
  | notArray
  | arr (items : List RawProps)
deriving Repr, DecidableEq

/-- One candidate of the secondary (ESRI) service: the `attributes` object
selected by `outFields`.  `Loc_name` is used unguarded by the source
(`attr.Loc_name.toLowerCase()`), so it is modelled as always present. -/
structure EsriCandidate where
  Typ : Option String := none
  Match_addr : Option String := none
  ShortLabel : Option String := none
  Subregion : Option String := none
  RegionAbbr : Option String := none
  Y : Option ℚ := none
  X : Option ℚ := none
  Ymin : Option ℚ := none
  Ymax : Option ℚ := none
  Xmin : Option ℚ := none
  Xmax : Option ℚ := none
  Score : Option ℚ := none
  Loc_name : String := ""
deriving Repr, DecidableEq

/-- Secondary service outcome: network failure, missing `candidates` field,
or the candidates array. -/
inductive SecondaryResp
  | netErr
  | noCandField
  | cands (items : List EsriCandidate)
deriving Repr, DecidableEq

/-- JS truthiness of an optional string (`undefined` and `''` are falsy). -/
def jsTruthyS : Option String → Bool
  | none => false
  | some s => s != ""

/-- The secondary→internal field mapping (the property object built for
`getFeature` in the secondary success handler). -/
def esriRaw (a : EsriCandidate) : RawProps :=
  { Typ := some (if jsTruthyS a.Typ then a.Typ.getD "" else "Addresses and Other Suggestions")
    Label := a.Match_addr
    Name := if jsTruthyS a.Typ then a.ShortLabel else a.Match_addr
    County := a.Subregion
    State := a.RegionAbbr
    Latitude := a.Y
    Longitude := a.X
    LatitudeMin := a.Ymin
    LatitudeMax := a.Ymax
    LongitudeMin := a.Xmin
    LongitudeMax := a.Xmax
    Score := a.Score
    Source := some ("esri-" ++ Js.toLower a.Loc_name)
    GnisId := none }

/-- One step of the secondary result accumulation: skip `Country` results,
skip candidates without a state, validate through `getFeature`, and drop
duplicates sharing `(Type, Name, County, State)` with an earlier feature. -/
def addCand (opts : Options) (inputStates : Option String)
    (features : List FeatProps) (a : EsriCandidate) : List FeatProps :=
  if a.Typ = some "Country" then features
  else if !jsTruthyS a.RegionAbbr then features
  else
    match getFeature opts inputStates (esriRaw a) with
    | none => features
    | some f =>
      if features.any (fun g =>
          g.Typ = f.Typ && g.Name = f.Name && g.County = f.County && g.State = f.State)
      then features
      else features ++ [f]

/-- The secondary-results sort comparator (`(a, b) => Type ? State ?
County`, never returning 0). -/
def featCmp (a b : FeatProps) : ℤ :=
  if a.Typ > b.Typ then 1 else if a.Typ < b.Typ then -1
  else if a.State > b.State then 1 else if a.State < b.State then -1
  else if a.County > b.County then 1 else -1

/-- Insert into a list sorted by the comparator (stable). -/
def insertFeat (x : FeatProps) : List FeatProps → List FeatProps
  | [] => [x]
  | y :: ys => if featCmp x y ≤ 0 then x :: y :: ys else y :: insertFeat x ys

/-- Model of `Array.prototype.sort` with `featCmp` (a stable sort; the
comparator is total and never reports equality). -/
def sortFeats : List FeatProps → List FeatProps
  | [] => []
  | x :: xs => insertFeat x (sortFeats xs)

/-- The environment of one resolution cycle: what each backend would
deliver, and whether this cycle's `AbortController` signal has been
triggered (by a newer cycle or the 7 s timeout) by the time each service
callback runs.  The signal is monotone: once aborted it stays aborted. -/
structure Env where
  primary : PrimaryResp
  secondary : SecondaryResp
  abortedAtPrimaryEnd : Bool
  abortedAtSecondaryEnd : Bool
deriving Repr, DecidableEq

/-- Control state touched by resolution: the suggestion cache, the current
suggestion set (`_suggestions.features`), and the current selection. -/
structure CtrlState where
  cache : List (String × List FeatProps)
  suggestions : List FeatProps
  selected : Option FeatProps
deriving Repr, DecidableEq

/-- Observable outcome of one `gc._locate` cycle: final cache, final
suggestion set, which backends were queried, and whether `_updateMenu`
(the only place the `onSuggest` notification can fire) ran at cycle end. -/
structure LocateResult where
  cache : List (String × List FeatProps)
  suggestions : List FeatProps
  calledPrimary : Bool
  calledSecondary : Bool
  menuUpdated : Bool
deriving Repr, DecidableEq

/-- `endLocate(cache)`: when this cycle's signal is not aborted, optionally
store the current suggestion set under the cycle's cache key and update the
menu; when aborted, do neither. -/
def endLocate (st : CtrlState) (cacheKey : String) (doCache : Bool)
    (sugg : List FeatProps) (aborted : Bool) (calledSecondary : Bool) :
    LocateResult :=
  if aborted then
    { cache := st.cache, suggestions := sugg, calledPrimary := true
      calledSecondary := calledSecondary, menuUpdated := false }
  else
    { cache := if doCache then Js.dictSet st.cache cacheKey sugg else st.cache
      suggestions := sugg, calledPrimary := true
      calledSecondary := calledSecondary, menuUpdated := true }

/-- `control.options.include.toLowerCase().includes('gnis')`: the secondary
service is only consulted when GNIS places are included. -/
def gnisIncluded (opts : Options) : Bool :=
  Js.includes (Js.toLower opts.include') "gnis"

/-- The primary `catch` handler: on abort or with the secondary service
disabled (`include` without `'gnis'`), end without caching; otherwise run
the secondary query.  An empty or invalid secondary response also ends
without caching; a non-empty candidates array is validated, deduplicated,
sorted and cached (even when validation leaves it empty). -/
def primaryCatch (opts : Options) (st : CtrlState) (input : ParsedInput)
    (env : Env) : LocateResult :=
  if env.abortedAtPrimaryEnd || !gnisIncluded opts then
    endLocate st input.cacheKey false [] env.abortedAtPrimaryEnd false
  else
    match env.secondary with
    | .cands items =>
      if items.isEmpty then
        endLocate st input.cacheKey false [] env.abortedAtSecondaryEnd true
      else
        let feats := sortFeats (items.foldl (addCand opts input.states) [])
        endLocate st input.cacheKey true feats env.abortedAtSecondaryEnd true
    | _ => endLocate st input.cacheKey false [] env.abortedAtSecondaryEnd true

/-- The fetch stage of `gc._locate` (after the early returns): query the
primary service; a non-empty array is validated and cached; an empty array
(`NO_API_SUGGESTIONS`), error response, non-array response or network
failure falls to the `catch` handler. -/
def fetchPhase (opts : Options) (st : CtrlState) (input : ParsedInput)
    (env : Env) : LocateResult :=
  match env.primary with
  | .arr items =>
    if items.isEmpty then primaryCatch opts st input env
    else
      let feats := items.filterMap (getFeature opts input.states)
      endLocate st input.cacheKey true feats env.abortedAtPrimaryEnd false
  | _ => primaryCatch opts st input env

/-- One full `gc._locate` resolution cycle.  In source order: parse the
input; close the menu when the trimmed text is too short; reuse a cached
set; surface a synthesized coordinate candidate when the term parses as a
lat-lon *and* the synthetic candidate validates; otherwise clear the
suggestions and run the fetch stage. -/
def locate (opts : Options) (st : CtrlState) (raw : String) (env : Env) :
    LocateResult :=
  let input := parseInput opts raw
  if (Js.trim raw).length < opts.minCharacters then
    { cache := st.cache, suggestions := [], calledPrimary := false
      calledSecondary := false, menuUpdated := true }
  else
    match Js.dictGet st.cache input.cacheKey with
    | some feats =>
      { cache := st.cache, suggestions := feats, calledPrimary := false
        calledSecondary := false, menuUpdated := true }
    | none =>
      let viaLatlon : Option FeatProps :=
        match input.latlon with
        | some (la, lo) => getFeature opts input.states (latlonRaw la lo)
        | none => none
      match viaLatlon with
      | some f =>
        { cache := st.cache, suggestions := [f], calledPrimary := false
          calledSecondary := false, menuUpdated := true }
      | none => fetchPhase opts st input env

end Gc

namespace Gc

/-!
### `control.setOptions`

The option dictionary is modelled generically (names to opaque JS values):
`setOptions` only inspects option *names*; the typed `Options` record above
is the view of the same dictionary that the resolution logic reads. -/

/-- A JS option value as far as `setOptions` is concerned: only its
`typeof`-class matters (`fn` covers the callback options). -/
inductive OptVal
  | str (s : String)
  | num (q : ℚ)
  | boolV (b : Bool)
  | arr (qs : List ℚ)
  | undef
  | fn
deriving Repr, DecidableEq

/-- The recognized option names — the keys of `defaultOptions`. -/
def defaultOptionNames : List String :=
  ["bounds", "states", "include", "controlClassName", "className",
   "maxSuggestions", "menuClassName", "menuHeight", "minCharacters",
   "placeholder", "size", "title", "width", "onSelect", "onSuggest"]

/-- The `defaultOptions` dictionary (values as `setOptions` sees them). -/
def defaultOptions : List (String × OptVal) :=
  [("bounds", .undef), ("states", .undef), ("include", .str "gnis postal state"),
   ("controlClassName", .str ""), ("className", .str ""),
   ("maxSuggestions", .num 50), ("menuClassName", .str ""),
   ("menuHeight", .str "40rem"), ("minCharacters", .num 2),
   ("placeholder", .str "Find a place"), ("size", .str "md"),
   ("title", .str ""), ("width", .undef), ("onSelect", .undef),
   ("onSuggest", .undef)]

/-- The argument shapes of `control.setOptions(...args)`: no argument, one
object, one non-object value, or a `(name, value)` pair. -/
inductive SetOptsArgs
  | noArgs
  | oneObj (kvs : List (String × OptVal))
  | oneNonObject (v : OptVal)
  | pair (name : String) (v : OptVal)
deriving Repr, DecidableEq

/-- Control state as `setOptions` touches it: the (possibly not yet
initialized) option dictionary, the cache, the suggestion set and the
selection. -/
structure SetOptsState where
  options : Option (List (String × OptVal))
  cache : List (String × List FeatProps)
  suggestions : List FeatProps
  selected : Option FeatProps
deriving Repr, DecidableEq

/-- `control.setOptions`: a `(name, value)` pair becomes a one-entry
object; a non-object single argument (including no argument, i.e.
`undefined`) is rejected with a warning and *returns without touching any
state*; otherwise unrecognized names are dropped with a warning, the rest
are merged into `control.options` (seeded from `defaultOptions` on first
call), and the cache, suggestion set and selection are cleared. -/
def setOptions (st : SetOptsState) (args : SetOptsArgs) : SetOptsState :=
  let newOptions : Option (List (String × OptVal)) :=
    match args with
    | .noArgs => none
    | .oneObj kvs => some kvs
    | .oneNonObject _ => none
    | .pair name v => some [(name, v)]
  match newOptions with
  | none => st
  | some kvs =>
    let recognized := kvs.filter (fun kv => defaultOptionNames.contains kv.1)
    let merged := recognized.foldl (fun acc kv => Js.dictSet acc kv.1 kv.2)
      (st.options.getD defaultOptions)
    { options := some merged
      cache := []
      suggestions := []
      selected := none }

end Gc

namespace SearchApi

/-!
## The legacy `search_api.js` (v2.0) implementation

Embeds `o._getSearchTermStates` and the keyup autocomplete dispatch
(character minimum, lat-lon check, cache lookup, negative-cache
short-circuit, service request scheduling).  Cached service responses are
opaque JSON records here: the dispatch logic only tests key membership and
array emptiness, never record contents. -/

/-- `search_api._all_states`: every valid 2-character abbreviation. -/
def allStates : List String :=
  ["AK", "AL", "AR", "AZ", "CA", "CO", "CT", "DC", "DE", "FL", "GA", "HI",
   "IA", "ID", "IL", "IN", "KS", "KY", "LA", "MA", "MD", "ME", "MI", "MN",
   "MO", "MS", "MT", "NC", "ND", "NE", "NH", "NJ", "NM", "NV", "NY", "OH",
   "OK", "OR", "PA", "PR", "RI", "SC", "SD", "TN", "TX", "UT", "VA", "VI",
   "VT", "WA", "WI", "WV", "WY", "N/A"]

/-- Options of the legacy widget used by the dispatch logic
(`search_states` is stored upper-cased and whitespace-free by `setOpts`). -/
structure SOpts where
  search_states : String
  menu_min_char : ℕ
  lat_min : ℚ
  lat_max : ℚ
  lon_min : ℚ
  lon_max : ℚ
deriving Repr, DecidableEq

/-- The legacy defaults (`search_api._opt_default`, after the `setOpts`
normalization of `search_states`). -/
def defaultSOpts : SOpts :=
  { search_states := "ALL", menu_min_char := 3,
    lat_min := -90, lat_max := 90, lon_min := -180, lon_max := 180 }

/-- Characters removed by
`replace(/[\/\\^$+?()|[\]{}%]/g, "")` (wildcard `*` and `-`, `.` kept). -/
def isSpecial (c : Char) : Bool :=
  c = '/' || c = '\\' || c = '^' || c = '$' || c = '+' || c = '?' ||
  c = '(' || c = ')' || c = '|' || c = '[' || c = ']' || c = '{' ||
  c = '}' || c = '%'

/-- `replace(/,+/g, " ")`: each comma run becomes one space. -/
def commaRunsGo : Bool → List Char → List Char
  | _, [] => []
  | p, c :: cs =>
    if c = ',' then (if p then commaRunsGo true cs else ' ' :: commaRunsGo true cs)
    else c :: commaRunsGo false cs

/-- The term filter of `o._getSearchTermStates` (source order: jQuery trim,
uppercase, drop non-ASCII, drop non-printables, drop special characters,
comma runs to one space, whitespace runs to one space, expand a leading
`"ST "`). -/
def filterTerm (raw : String) : String :=
  let l0 := Js.trimList raw.toList
  let l1 := l0.map Char.toUpper
  let l2 := l1.filter (fun c => c.toNat ≤ 127)
  let l3 := l2.filter (fun c => c.toNat ≥ 32)
  let l4 := l3.filter (fun c => !isSpecial c)
  let l5 := commaRunsGo false l4
  let l6 := Gc.collapseGo false l5
  (Gc.expandST l6).asString

/-- `o._getSearchTermStates`: filter the term, extract a trailing
2-character state abbreviation, and reconcile it with the configured
`search_states` (an extracted state not in a restricted list is put back
into the term). Returns `(term, states)`. -/
def getSearchTermStates (opts : SOpts) (raw : String) : String × String :=
  let term0 := filterTerm raw
  let parts := Js.split ' ' term0
  let lastPart := parts.getLastD ""
  let extracted := parts.length ≥ 2 && allStates.contains lastPart
  let term1 := if extracted then String.intercalate " " parts.dropLast else term0
  let states1 := if extracted then lastPart else ""
  if states1 != "" && opts.search_states = "ALL" then
    (term1, states1)
  else if states1 != "" then
    if (Js.split ',' opts.search_states).contains states1 then
      (term1, states1)
    else
      (term1 ++ " " ++ states1, opts.search_states)
  else
    (term1, opts.search_states)

/-- The legacy lat-lon check of the keyup handler: split the term on
whitespace, pad to two elements with `"X"`, `parseFloat` both, force the
longitude negative, and range-check against the configured bounds. -/
def latlonCheck (opts : SOpts) (term : String) : Option (ℚ × ℚ) :=
  let parts := Js.split ' ' term
  let parts := if parts.length < 2 then parts ++ ["X"] else parts
  let lat? := Js.jsParseFloat (parts.getD 0 "")
  let lon? := (Js.jsParseFloat (parts.getD 1 "")).map (fun x => -|x|)
  match lat?, lon? with
  | some lat, some lon =>
    if opts.lat_min ≤ lat && lat ≤ opts.lat_max &&
       opts.lon_min ≤ lon && lon ≤ opts.lon_max then some (lat, lon) else none
  | _, _ => none

/-- Outcome of one keyup dispatch: menu closed (too few characters), a
synthesized coordinate shown, a cached result reused, the negative-cache
short-circuit (empty menu, no request), or a service request scheduled
after the delay. -/
inductive KeyupOutcome
  | tooShort
  | latlon (lat lon : ℚ)
  | cached (key : String) (items : List String)
  | negCache (term : String)
  | request (term states key : String)
deriving Repr, DecidableEq

/-- The negative-cache loop:
`for (n = term.length - 1; n > menu_min_char; n--)` — is some strict
prefix of the term, of length *strictly greater* than `menu_min_char`,
cached with an empty result under the same states? -/
def negCacheHit (opts : SOpts) (cache : List (String × List String))
    (term states : String) : Bool :=
  (List.range term.length).any (fun n =>
    opts.menu_min_char < n &&
    Js.dictGet cache (String.mk (term.toList.take n) ++ "|" ++ states) = some [])

/-- The keyup autocomplete dispatch of `search_api._setup` (after the
key-filter and the cancellation of any previous timer/XHR), in source
order: character minimum, term/states filtering, lat-lon check, cache
lookup, negative-cache loop, service request. -/
def keyup (opts : SOpts) (cache : List (String × List String))
    (raw : String) : KeyupOutcome :=
  if (Js.trim raw).length < opts.menu_min_char then .tooShort
  else
    let ts := getSearchTermStates opts raw
    let term := ts.1
    let states := ts.2
    match latlonCheck opts term with
    | some (lat, lon) => .latlon lat lon
    | none =>
      let key := term ++ "|" ++ states
      match Js.dictGet cache key with
      | some items => .cached key items
      | none =>
        if negCacheHit opts cache term states then .negCache term
        else .request term states key

end SearchApi

/-!
## Concrete fixtures used by the closed theorems and witnesses
-/

/-- A fresh control resolution state: empty cache, no suggestions, no
selection. -/
def emptyCtrl : Gc.CtrlState := { cache := [], suggestions := [], selected := none }

/-- Environment: primary answers with an empty array, secondary would fail,
no abort. -/
def envEmptyPrimary : Gc.Env :=
  { primary := .arr [], secondary := .netErr
    abortedAtPrimaryEnd := false, abortedAtSecondaryEnd := false }

/-- Options with GNIS places excluded — the configuration under which the
secondary service is disabled. -/
def optsNoGnis : Gc.Options :=
  { Gc.defaultEngineOptions with include' := "state postal" }

/-- Options with an active Texas state filter. -/
def optsTx : Gc.Options :=
  { Gc.defaultEngineOptions with states := some "tx" }

/-- A well-formed raw candidate for Austin, TX. -/
def rawAustin : Gc.RawProps :=
  { Name := some "Austin", Typ := some "City", Source := some "gnis"
    Latitude := some (303/10), Longitude := some (-977/10), State := some "TX" }

/-- The validated feature produced from `rawAustin` with no state filter. -/
def featAustin : Gc.FeatProps :=
  { County := "", GnisId := none, Label := "Austin (TX)"
    Latitude := 303/10, LatitudeMax := 30300001/1000000
    LatitudeMin := 30299999/1000000, Longitude := -977/10
    LongitudeMax := -97699999/1000000, LongitudeMin := -97700001/1000000
    Name := "Austin", Score := 100, Source := "gnis", State := "TX"
    Typ := "City" }

/-- Environment: primary answers with `[rawAustin]`, no abort. -/
def envAustin : Gc.Env :=
  { primary := .arr [rawAustin], secondary := .netErr
    abortedAtPrimaryEnd := false, abortedAtSecondaryEnd := false }

/-- Environment: primary answers with `[rawAustin]` but this cycle's signal
is already aborted when the callback runs. -/
def envAustinAborted : Gc.Env :=
  { primary := .arr [rawAustin], secondary := .netErr
    abortedAtPrimaryEnd := true, abortedAtSecondaryEnd := true }

/-- A well-formed secondary-service candidate for Austin, TX. -/
def esriAustin : Gc.EsriCandidate :=
  { Typ := some "City", Match_addr := some "Austin, Texas"
    ShortLabel := some "Austin", Subregion := some "Travis County"
    RegionAbbr := some "TX", Y := some (303/10), X := some (-977/10)
    Score := some 100, Loc_name := "World" }

/-- Environment: the primary answers `[]`, the secondary answers with
`[esriAustin]`, and the cycle's signal is triggered between the primary and
the secondary callback (supersession or the 7 s timeout during the
fallback call): not yet aborted when the primary callback runs, aborted by
the time the secondary callback runs. -/
def envSecondaryAborted : Gc.Env :=
  { primary := .arr [], secondary := .cands [esriAustin]
    abortedAtPrimaryEnd := false, abortedAtSecondaryEnd := true }

/-- The 8-token DMS scenario input from the spec. -/
def coordInput : String := "44 57 53.2728 N 93 14 27.4812 W"

/-- The synthesized coordinate candidate for `coordInput` under default
options. -/
def coordFeat : Gc.FeatProps :=
  { County := "", GnisId := none
    Label := "Coordinate (44.964798, -93.240967)"
    Latitude := 44964798/1000000, LatitudeMax := 44964799/1000000
    LatitudeMin := 44964797/1000000, Longitude := -93240967/1000000
    LongitudeMax := -93240966/1000000, LongitudeMin := -93240968/1000000
    Name := "Coordinate (44.964798, -93.240967)", Score := 100
    Source := "latlon", State := "", Typ := "Latitude-Longitude Coordinate" }

/-- Bounds whose maximum latitude is not representable at 6 decimals. -/
def optsTinyBound : Gc.Options :=
  { Gc.defaultEngineOptions with bounds := some (-90, -180, 11/20000000, 180) }

/-- A raw candidate whose in-bounds latitude rounds past the bound. -/
def rawTinyLat : Gc.RawProps :=
  { Name := some "X", Typ := some "T", Source := some "s"
    Latitude := some (27/50000000), Longitude := some (-97) }

/-- The surfaced feature for `rawTinyLat` under `optsTinyBound`. -/
def featTinyLat : Gc.FeatProps :=
  { County := "", GnisId := none, Label := "X ()"
    Latitude := 1/1000000, LatitudeMax := 1/500000, LatitudeMin := 0
    Longitude := -97, LongitudeMax := -96999999/1000000
    LongitudeMin := -97000001/1000000, Name := "X", Score := 100
    Source := "s", State := "", Typ := "T" }

/-- Environment: primary answers with `[rawTinyLat]`, no abort. -/
def envTinyLat : Gc.Env :=
  { primary := .arr [rawTinyLat], secondary := .netErr
    abortedAtPrimaryEnd := false, abortedAtSecondaryEnd := false }

/-- A `setOptions` state having an active selection, a cached entry and a
visible suggestion. -/
def selState : Gc.SetOptsState :=
  { options := some Gc.defaultOptions
    cache := [("AUSTIN|TX", [featAustin])]
    suggestions := [featAustin]
    selected := some featAustin }

/-!
## Helper lemmas (NaN propagation, rounding)
-/

theorem dms2decN_none_d (m s : Option ℚ) : Gc.dms2decN none m s = none := by
  cases m <;> cases s <;> rfl

theorem dms2decN_none_m (d s : Option ℚ) : Gc.dms2decN d none s = none := by
  cases d <;> cases s <;> rfl

theorem dms2decN_none_s (d m : Option ℚ) : Gc.dms2decN d m none = none := by
  cases d <;> cases m <;> rfl

theorem omul_none_left (b : Option ℚ) : Gc.omul none b = none := by
  cases b <;> rfl

theorem omul_none_right (a : Option ℚ) : Gc.omul a none = none := by
  cases a <;> rfl

theorem finishLatlon_none_left (b : Option ℚ) : Gc.finishLatlon none b = none := by
  cases b <;> rfl

theorem finishLatlon_none_right (a : Option ℚ) : Gc.finishLatlon a none = none := by
  cases a <;> rfl

theorem finishLatlon_some {a b : Option ℚ} {la lo : ℚ}
    (h : Gc.finishLatlon a b = some (la, lo)) :
    ∃ x y, la = Gc.roundCoord x ∧ lo = Gc.roundCoord y := by
  cases a with
  | none => simp [Gc.finishLatlon] at h
  | some x =>
    cases b with
    | none => simp [Gc.finishLatlon] at h
    | some y =>
      refine ⟨x, y, ?_, ?_⟩ <;>
        · simp only [Gc.finishLatlon, Option.some.injEq, Prod.mk.injEq] at h
          simp [h.1.symm, h.2.symm]

theorem roundCoord_den (x : ℚ) : (Gc.roundCoord x * 1000000).den = 1 := by
  have h6 : ((10 : ℚ) ^ (6 : ℕ)) = 1000000 := by norm_num
  have : Gc.roundCoord x * 1000000 = ((round (x * 10 ^ 6) : ℤ) : ℚ) := by
    unfold Gc.roundCoord Js.toFixedNum Gc.nCoordDecimals
    rw [h6]
    field_simp
  rw [this]
  exact Rat.den_intCast _

theorem abs_roundCoord_sub_le (x : ℚ) :
    |Gc.roundCoord x - x| ≤ 1 / 2000000 := by
  have h6 : ((10 : ℚ) ^ (6 : ℕ)) = 1000000 := by norm_num
  have h := abs_sub_round (x * 10 ^ (6 : ℕ))
  unfold Gc.roundCoord Js.toFixedNum Gc.nCoordDecimals
  rw [h6] at *
  have : (round (x * 1000000) : ℚ) / 1000000 - x =
      ((round (x * 1000000) : ℚ) - x * 1000000) / 1000000 := by ring
  rw [this, abs_div]
  rw [show |(1000000 : ℚ)| = 1000000 by norm_num]
  rw [div_le_iff₀ (by norm_num : (0:ℚ) < 1000000)]
  calc |(round (x * 1000000) : ℚ) - x * 1000000|
      = |x * 1000000 - (round (x * 1000000) : ℚ)| := abs_sub_comm _ _
    _ ≤ 1 / 2 := h
    _ = 1 / 2000000 * 1000000 := by norm_num

/-!
## Claim theorems

Batteries marks the `Rat` arithmetic operations `@[irreducible]`; concrete
evaluation by `decide` needs them reducible. -/

section ClaimTheorems

attribute [local semireducible] Rat.mul Rat.add Rat.inv Rat.sub Rat.ofScientific

/-- C3: the claim states the DMS conversion is
`sign(degrees) × (|degrees| + minutes/60 + seconds/3600)` and that for
negative degrees the minutes and seconds still move the value away from
zero.  The source computes `Math.sign(d) * (d + m/60 + s/3600)` without the
absolute value, so for the 6-token input `-44 57 53 93 14 27` the latitude
evaluates to `+43.035278` (sign flipped, minutes and seconds moving the
value *toward* zero) while the documented formula gives `-44.964722`; the
two formulas agree exactly when `degrees > 0`. -/
theorem C3_dms_negative_degrees :
    Gc.dms2dec (-44) 57 53 = 154927/3600 ∧
    Gc.specDms2dec (-44) 57 53 = -161873/3600 ∧
    Gc.dms2dec (-44) 57 53 ≠ Gc.specDms2dec (-44) 57 53 ∧
    Gc.latlonOfParts ["-44", "57", "53", "93", "14", "27"] =
      some (43035278/1000000, -93240833/1000000) ∧
    (∀ d m s : ℚ, 0 < d → Gc.dms2dec d m s = Gc.specDms2dec d m s) := by
  refine ⟨by norm_num [Gc.dms2dec, Js.sign], by norm_num [Gc.specDms2dec, Js.sign],
    by norm_num [Gc.dms2dec, Gc.specDms2dec, Js.sign], by decide, ?_⟩
  intro d m s hd
  unfold Gc.dms2dec Gc.specDms2dec
  rw [abs_of_pos hd]

/-- C9 counterexample: the claim says the normalizer trims *before*
expanding a leading `"ST "` token, so leading whitespace would not defeat
the expansion.  In the source the `replace(/^ST /u, 'SAINT ')` runs before
`.trim()`, so the input `" st paul"` (whose collapsed form keeps one
leading space) is *not* expanded: the code yields `"ST PAUL"` while the
claimed order yields `"SAINT PAUL"`. -/
theorem C9_counterexample :
    Gc.normalizeTerm " st paul" = "ST PAUL" ∧
    Gc.specNormalizeTerm " st paul" = "SAINT PAUL" ∧
    Gc.normalizeTerm " st paul" ≠ Gc.specNormalizeTerm " st paul" := by
  refine ⟨by decide, by decide, by decide⟩

/-- C10 (amended): a `setOptions` call whose arguments denote an options
object — one object argument (even empty or with only unrecognized names,
which are dropped with a warning) or a `(name, value)` pair — resets the
cache, the suggestion set and the selection; but a call with no argument or
a single non-object argument is rejected with a warning and leaves the
control state (including the selection) untouched. -/
theorem C10_setOptions_resets :
    (∀ (st : Gc.SetOptsState) (kvs : List (String × Gc.OptVal)),
      (Gc.setOptions st (.oneObj kvs)).cache = [] ∧
      (Gc.setOptions st (.oneObj kvs)).suggestions = [] ∧
      (Gc.setOptions st (.oneObj kvs)).selected = none) ∧
    (∀ (st : Gc.SetOptsState) (name : String) (v : Gc.OptVal),
      (Gc.setOptions st (.pair name v)).cache = [] ∧
      (Gc.setOptions st (.pair name v)).suggestions = [] ∧
      (Gc.setOptions st (.pair name v)).selected = none) ∧
    (∀ st : Gc.SetOptsState, Gc.setOptions st .noArgs = st) ∧
    (∀ (st : Gc.SetOptsState) (v : Gc.OptVal),
      Gc.setOptions st (.oneNonObject v) = st) := by
  refine ⟨fun st kvs => ⟨rfl, rfl, rfl⟩, fun st name v => ⟨rfl, rfl, rfl⟩,
    fun st => rfl, fun st v => rfl⟩

/-- C10 counterexample: the claim says *every* `setOptions` call,
regardless of its arguments, resets the selection (so `getSelected()`
returns `undefined` afterwards).  A call with no argument (or any
non-object single argument) takes the usage-error early return and leaves
the selection in place. -/
theorem C10_counterexample :
    Gc.setOptions selState .noArgs = selState ∧
    (Gc.setOptions selState .noArgs).selected = some featAustin ∧
    Gc.setOptions selState (.oneNonObject (.str "states")) = selState := by
  refine ⟨rfl, rfl, rfl⟩

/-- C2 counterexample: the claim includes prefixes of length *equal* to the
configured minimum character count in the negative-cache short-circuit and
promises that a term cached empty short-circuits every one-character
extension.  The loop `for (n = len-1; n > menu_min_char; n--)` excludes
length `menu_min_char`: with the default minimum 3, the term `"AUS"`
cached empty under `"ALL"` does *not* stop its extension `"ausf"`, which
still schedules a backend request. -/
theorem C2_counterexample :
    SearchApi.defaultSOpts.menu_min_char = 3 ∧
    Js.dictGet [("AUS|ALL", ([] : List String))] ("AUS" ++ "|" ++ "ALL") =
      some [] ∧
    (SearchApi.getSearchTermStates SearchApi.defaultSOpts "ausf") =
      ("AUSF", "ALL") ∧
    (String.mk ("AUSF".toList.take 3)) = "AUS" ∧
    SearchApi.keyup SearchApi.defaultSOpts [("AUS|ALL", [])] "ausf" =
      .request "AUSF" "ALL" "AUSF|ALL" := by
  refine ⟨rfl, by decide, by decide, by decide, by decide⟩

/-- C7 counterexample: the claim says the validator never rejects a
candidate *solely* because its `State` field is absent, even under an
active state filter.  With the filter `TX` active, `rawAustin` (whose
`State` is present and allowed) passes, but the same record with `State`
removed is rejected: the absent field defaults to `''` *before* the filter
membership test, and `''` is not in the filter list. -/
theorem C7_counterexample :
    (Gc.getFeature Gc.defaultEngineOptions (some "TX") rawAustin).isSome = true ∧
    Gc.getFeature Gc.defaultEngineOptions (some "TX")
      { rawAustin with State := none } = none ∧
    (Gc.getFeature Gc.defaultEngineOptions none
      { rawAustin with State := none }).isSome = true := by
  refine ⟨by decide, by decide, by decide⟩

/-- C4: the coordinate parser returns `null` for every token count outside
`{2, 4, 6, 8}`; within each supported pattern it returns `null` whenever a
numeric slot is not numeric (`Number` gives NaN) or a hemisphere slot does
not hold a recognized hemisphere letter; and every successfully parsed
coordinate is rounded to 6 decimal places (both components are integer
multiples of `10⁻⁶`). -/
theorem C4_parser_null_and_rounding (parts : List String) :
    (parts.length ∉ ([2, 4, 6, 8] : List ℕ) → Gc.latlonOfParts parts = none) ∧
    (∀ d1 m1 s1 ns d2 m2 s2 ew, parts = [d1, m1, s1, ns, d2, m2, s2, ew] →
      (Js.jsNum d1 = none ∨ Js.jsNum m1 = none ∨ Js.jsNum s1 = none ∨
       Js.jsNum d2 = none ∨ Js.jsNum m2 = none ∨ Js.jsNum s2 = none ∨
       Gc.NS ns = none ∨ Gc.EW ew = none) →
      Gc.latlonOfParts parts = none) ∧
    (∀ d1 m1 s1 d2 m2 s2, parts = [d1, m1, s1, d2, m2, s2] →
      (Js.jsNum d1 = none ∨ Js.jsNum m1 = none ∨ Js.jsNum s1 = none ∨
       Js.jsNum d2 = none ∨ Js.jsNum m2 = none ∨ Js.jsNum s2 = none) →
      Gc.latlonOfParts parts = none) ∧
    (∀ a ns b ew, parts = [a, ns, b, ew] →
      (Js.jsNum a = none ∨ Js.jsNum b = none ∨
       Gc.NS ns = none ∨ Gc.EW ew = none) →
      Gc.latlonOfParts parts = none) ∧
    (∀ a b, parts = [a, b] →
      (Js.jsNum a = none ∨ Js.jsNum b = none) →
      Gc.latlonOfParts parts = none) ∧
    (∀ la lo, Gc.latlonOfParts parts = some (la, lo) →
      (la * 1000000).den = 1 ∧ (lo * 1000000).den = 1) := by
  refine ⟨?_, ?_, ?_, ?_, ?_, ?_⟩
  · intro h
    unfold Gc.latlonOfParts
    split
    all_goals first | rfl | simp at h
  · rintro d1 m1 s1 ns d2 m2 s2 ew rfl (h | h | h | h | h | h | h | h) <;>
      simp [Gc.latlonOfParts, h, dms2decN_none_d, dms2decN_none_m,
        dms2decN_none_s, omul_none_left, omul_none_right,
        finishLatlon_none_left, finishLatlon_none_right]
  · rintro d1 m1 s1 d2 m2 s2 rfl (h | h | h | h | h | h) <;>
      simp [Gc.latlonOfParts, h, dms2decN_none_d, dms2decN_none_m,
        dms2decN_none_s, finishLatlon_none_left, finishLatlon_none_right]
  · rintro a ns b ew rfl (h | h | h | h) <;>
      simp [Gc.latlonOfParts, h, omul_none_left, omul_none_right,
        finishLatlon_none_left, finishLatlon_none_right]
  · rintro a b rfl (h | h) <;>
      simp [Gc.latlonOfParts, h, finishLatlon_none_left, finishLatlon_none_right]
  · intro la lo h
    unfold Gc.latlonOfParts at h
    split at h
    all_goals first
      | exact Option.noConfusion h
      | (obtain ⟨x, y, hx, hy⟩ := finishLatlon_some h
         rw [hx, hy]
         exact ⟨roundCoord_den x, roundCoord_den y⟩)

/-- C4 witness: a 3-token list parses to `null`; a 4-token list with an
invalid hemisphere letter parses to `null`; a parsed 2-token coordinate is
an integer multiple of `10⁻⁶` in both components. -/
theorem C4_witness :
    Gc.latlonOfParts ["1", "2", "3"] = none ∧
    Gc.latlonOfParts ["30.5", "X", "90", "W"] = none ∧
    (((30123457 : ℚ)/1000000) * 1000000).den = 1 ∧
    (((-90650000 : ℚ)/1000000) * 1000000).den = 1 := by
  refine ⟨(C4_parser_null_and_rounding ["1", "2", "3"]).1 (by decide),
    (C4_parser_null_and_rounding ["30.5", "X", "90", "W"]).2.2.2.1
      "30.5" "X" "90" "W" rfl (Or.inr (Or.inr (Or.inl (by decide)))),
    ?_, ?_⟩
  · exact ((C4_parser_null_and_rounding ["30.123456789", "90.65"]).2.2.2.2.2
      (30123457/1000000) (-90650000/1000000) (by decide)).1
  · exact ((C4_parser_null_and_rounding ["30.123456789", "90.65"]).2.2.2.2.2
      (30123457/1000000) (-90650000/1000000) (by decide)).2

/-- C7 (amended): the candidate validator's state rule tests the trimmed
raw `State` value — with an absent state defaulted to the empty string
*before* the test — for membership in the active filter: an accepted
candidate's state belongs to the filter (or the filter string is empty),
a candidate whose (possibly defaulted) state is not in a non-empty filter
is rejected — so an absent state *is* rejected under any active filter
whose list does not contain the empty string — and with no active filter
the state field never decides acceptance. -/
theorem C7_state_rule :
    (∀ (opts : Gc.Options) (ss : String) (p : Gc.RawProps) (f : Gc.FeatProps),
      Gc.getFeature opts (some ss) p = some f →
      ss = "" ∨ (Js.split ',' ss).contains (Js.trim (p.State.getD "")) = true) ∧
    (∀ (opts : Gc.Options) (ss : String) (p : Gc.RawProps),
      ss ≠ "" → (Js.split ',' ss).contains (Js.trim (p.State.getD "")) = false →
      Gc.getFeature opts (some ss) p = none) ∧
    (∀ (opts : Gc.Options) (p : Gc.RawProps),
      (Gc.getFeature opts none p).isSome =
        (Gc.getFeature opts none { p with State := none }).isSome) := by
  refine ⟨?_, ?_, ?_⟩
  · intro opts ss p f h
    unfold Gc.getFeature at h
    split at h
    · rename_i hvalid
      unfold Gc.featValid at hvalid
      simp only [Bool.and_eq_true, Bool.or_eq_true, decide_eq_true_eq] at hvalid
      exact hvalid.1.1.1.2
    · exact Option.noConfusion h
  · intro opts ss p hne hcon
    have hmem : Js.trim (p.State.getD "") ∉ Js.split ',' ss := by
      simpa using hcon
    have hv : Gc.featValid opts (some ss) p = false := by
      unfold Gc.featValid
      simp [hne, hmem]
    unfold Gc.getFeature
    rw [hv]
    rfl
  · intro opts p
    have key : ∀ {q : Gc.RawProps}, (Gc.getFeature opts none q).isSome =
        Gc.featValid opts none q := by
      intro q
      unfold Gc.getFeature
      cases hv : Gc.featValid opts none q <;> simp [hv]
    rw [key, key]
    rfl

/-- C7 witness: instantiating the rejection rule — filter `TX` active,
state absent (defaults to `''`, not in `["TX"]`) — the validator returns
no feature. -/
theorem C7_witness :
    ("TX" : String) ≠ "" ∧
    (Js.split ',' "TX").contains (Js.trim (Gc.RawProps.State
      { rawAustin with State := none } |>.getD "")) = false ∧
    Gc.getFeature Gc.defaultEngineOptions (some "TX")
      { rawAustin with State := none } = none := by
  refine ⟨by decide, by decide, C7_state_rule.2.1 Gc.defaultEngineOptions "TX"
    { rawAustin with State := none } (by decide) (by decide)⟩

theorem dropWhile_cons_false {p : Char → Bool} {a : Char} {l : List Char}
    (h : p a = false) : (a :: l).dropWhile p = a :: l := by
  simp [List.dropWhile_cons, h]

theorem head_false_of_dropWhile_eq {p : Char → Bool} {x : Char}
    {xs : List Char} (h : (x :: xs).dropWhile p = x :: xs) : p x = false := by
  by_contra hx
  rw [Bool.not_eq_false] at hx
  rw [List.dropWhile_cons, if_pos hx] at h
  have hle := (List.dropWhile_sublist (l := xs) p).length_le
  rw [h] at hle
  simp at hle

theorem expandST_eq (l : List Char) :
    (∃ rest, l = 'S' :: 'T' :: ' ' :: rest ∧
      Gc.expandST l = 'S' :: 'A' :: 'I' :: 'N' :: 'T' :: ' ' :: rest) ∨
    Gc.expandST l = l := by
  unfold Gc.expandST
  split
  · rename_i rest
    exact Or.inl ⟨rest, rfl, rfl⟩
  · exact Or.inr rfl

/-- C9 (amended): the normalizer applies, in this order: uppercase; replace
every character outside `[A-Z0-9*\-.]` with a space; collapse whitespace
runs; *expand a leading `"ST "` token*; *then trim* — the expansion runs
before the trim, so an input with leading whitespace before `"st "` does
*not* have the token expanded.  When the collapsed text has no leading and
no trailing whitespace the two orders coincide. -/
theorem C9_normalizer_order (s : String)
    (h1 : (Gc.preTrim s).dropWhile Js.isWs = Gc.preTrim s)
    (h2 : (Gc.preTrim s).reverse.dropWhile Js.isWs = (Gc.preTrim s).reverse) :
    Gc.normalizeTerm s = Gc.specNormalizeTerm s := by
  have trimc : Js.trimList (Gc.preTrim s) = Gc.preTrim s := by
    unfold Js.trimList
    rw [h1, h2, List.reverse_reverse]
  unfold Gc.normalizeTerm Gc.specNormalizeTerm
  rw [trimc]
  congr 1
  rcases expandST_eq (Gc.preTrim s) with ⟨rest, hc, he⟩ | he
  · rw [he]
    rw [hc] at h2
    have hrev : ('S' :: 'T' :: ' ' :: rest).reverse =
        rest.reverse ++ [' ', 'T', 'S'] := by simp
    rw [hrev] at h2
    cases hxr : rest.reverse with
    | nil =>
      exfalso
      rw [hxr, List.nil_append] at h2
      exact absurd h2 (by decide)
    | cons x xs =>
      rw [hxr, List.cons_append] at h2
      have hx : Js.isWs x = false := head_false_of_dropWhile_eq h2
      unfold Js.trimList
      rw [dropWhile_cons_false (show Js.isWs 'S' = false by decide)]
      have hrev2 : ('S' :: 'A' :: 'I' :: 'N' :: 'T' :: ' ' :: rest).reverse =
          x :: (xs ++ [' ', 'T', 'N', 'I', 'A', 'S']) := by
        have hr : ('S' :: 'A' :: 'I' :: 'N' :: 'T' :: ' ' :: rest).reverse =
            rest.reverse ++ [' ', 'T', 'N', 'I', 'A', 'S'] := by simp
        rw [hr, hxr, List.cons_append]
      rw [hrev2, dropWhile_cons_false hx, ← hrev2, List.reverse_reverse]
  · rw [he]
    exact trimc

/-- C9 witness: for the input `"st paul"` (no leading or trailing
whitespace) the code order and the claimed order agree, both producing
`"SAINT PAUL"`. -/
theorem C9_witness :
    ((Gc.preTrim "st paul").dropWhile Js.isWs = Gc.preTrim "st paul") ∧
    ((Gc.preTrim "st paul").reverse.dropWhile Js.isWs =
      (Gc.preTrim "st paul").reverse) ∧
    Gc.normalizeTerm "st paul" = Gc.specNormalizeTerm "st paul" :=
  ⟨by decide, by decide, C9_normalizer_order "st paul" (by decide) (by decide)⟩

/-- C2 (amended): the negative-cache short-circuit fires for strict
prefixes of length *strictly greater* than the configured minimum
character count: if the dispatch reaches the cache stage (enough
characters, not a lat-lon, no direct cache hit) and some strict prefix of
the term with `menu_min_char < length < term.length` is cached empty under
the same state filter, the term resolves to an empty suggestion set with
no backend request.  (A term of exactly the minimum length cached empty
does *not* short-circuit its extensions — see the counterexample.) -/
theorem C2_negcache_shortcircuit (opts : SearchApi.SOpts)
    (cache : List (String × List String)) (raw : String) (n : ℕ)
    (hlen : ¬ (Js.trim raw).length < opts.menu_min_char)
    (hll : SearchApi.latlonCheck opts
      (SearchApi.getSearchTermStates opts raw).1 = none)
    (hmiss : Js.dictGet cache ((SearchApi.getSearchTermStates opts raw).1 ++
      "|" ++ (SearchApi.getSearchTermStates opts raw).2) = none)
    (hn1 : opts.menu_min_char < n)
    (hn2 : n < (SearchApi.getSearchTermStates opts raw).1.length)
    (hpref : Js.dictGet cache
      (String.mk ((SearchApi.getSearchTermStates opts raw).1.toList.take n) ++
        "|" ++ (SearchApi.getSearchTermStates opts raw).2) = some []) :
    SearchApi.keyup opts cache raw =
      .negCache (SearchApi.getSearchTermStates opts raw).1 := by
  have hhit : SearchApi.negCacheHit opts cache
      (SearchApi.getSearchTermStates opts raw).1
      (SearchApi.getSearchTermStates opts raw).2 = true := by
    unfold SearchApi.negCacheHit
    rw [List.any_eq_true]
    refine ⟨n, List.mem_range.mpr hn2, ?_⟩
    rw [Bool.and_eq_true]
    exact ⟨by simpa using hn1, by simpa using hpref⟩
  unfold SearchApi.keyup
  rw [if_neg hlen]
  simp [hll, hmiss, hhit]

/-- C2 witness: with the default options, `"AUST"` (length 4 > the minimum
3) cached empty under `"ALL"` makes its extension `"austi"` resolve to the
empty set with no request. -/
theorem C2_witness :
    (¬ (Js.trim "austi").length < SearchApi.defaultSOpts.menu_min_char) ∧
    SearchApi.keyup SearchApi.defaultSOpts [("AUST|ALL", [])] "austi" =
      .negCache "AUSTI" := by
  refine ⟨by decide, ?_⟩
  have h := C2_negcache_shortcircuit SearchApi.defaultSOpts
    [("AUST|ALL", [])] "austi" 4 (by decide) (by decide) (by decide)
    (by decide) (by decide) (by decide)
  simpa using h

theorem fetchPhase_aborted (opts : Gc.Options) (st : Gc.CtrlState)
    (input : Gc.ParsedInput) (env : Gc.Env)
    (h1 : env.abortedAtPrimaryEnd = true)
    (h2 : env.abortedAtSecondaryEnd = true) :
    (Gc.fetchPhase opts st input env).cache = st.cache ∧
    (Gc.fetchPhase opts st input env).menuUpdated = false := by
  unfold Gc.fetchPhase Gc.primaryCatch Gc.endLocate
  rcases env with ⟨prim, sec, ap, as⟩
  simp only at h1 h2
  subst h1; subst h2
  cases prim <;> cases sec <;> simp <;> split <;> simp

theorem primaryCatch_aborted_secondary (opts : Gc.Options)
    (st : Gc.CtrlState) (input : Gc.ParsedInput) (env : Gc.Env)
    (h2 : env.abortedAtSecondaryEnd = true)
    (hcs : (Gc.primaryCatch opts st input env).calledSecondary = true) :
    (Gc.primaryCatch opts st input env).cache = st.cache ∧
    (Gc.primaryCatch opts st input env).menuUpdated = false := by
  revert hcs
  unfold Gc.primaryCatch Gc.endLocate
  rw [h2]
  by_cases hgate : (env.abortedAtPrimaryEnd || !Gc.gnisIncluded opts) = true
  · rw [if_pos hgate]
    split <;> (intro hcs; exact absurd hcs (by simp))
  · rw [if_neg hgate]
    cases hsec : env.secondary with
    | netErr =>
      intro _
      exact ⟨rfl, rfl⟩
    | noCandField =>
      intro _
      exact ⟨rfl, rfl⟩
    | cands items =>
      dsimp only
      by_cases hemp : items.isEmpty = true
      · rw [if_pos hemp]
        intro _
        exact ⟨rfl, rfl⟩
      · rw [if_neg hemp]
        intro _
        exact ⟨rfl, rfl⟩

theorem fetchPhase_aborted_secondary (opts : Gc.Options) (st : Gc.CtrlState)
    (input : Gc.ParsedInput) (env : Gc.Env)
    (h2 : env.abortedAtSecondaryEnd = true)
    (hcs : (Gc.fetchPhase opts st input env).calledSecondary = true) :
    (Gc.fetchPhase opts st input env).cache = st.cache ∧
    (Gc.fetchPhase opts st input env).menuUpdated = false := by
  revert hcs
  unfold Gc.fetchPhase
  cases hprim : env.primary with
  | netErr => exact primaryCatch_aborted_secondary opts st input env h2
  | errObj => exact primaryCatch_aborted_secondary opts st input env h2
  | notArray => exact primaryCatch_aborted_secondary opts st input env h2
  | arr items =>
    dsimp only
    by_cases hemp : items.isEmpty = true
    · rw [if_pos hemp]
      exact primaryCatch_aborted_secondary opts st input env h2
    · rw [if_neg hemp]
      unfold Gc.endLocate
      by_cases hap : env.abortedAtPrimaryEnd = true
      · rw [if_pos hap]
        intro hcs
        exact absurd hcs (by simp)
      · rw [if_neg hap]
        intro hcs
        exact absurd hcs (by simp)

/-- C6: a resolution cycle that reached the fetch stage (the only stage
that creates a cancellation token) and whose token has been triggered — by
a newer input cycle or the 7 s timeout — before the cycle completes, ends
without writing any cache entry and without calling `_updateMenu`, the
sole place the suggestion-set-changed (`onSuggest`) notification can fire.
The two conjuncts cover the two moments a completion callback can observe
the triggered token: already aborted when the primary callback runs (the
signal is monotone, so both flags are true), or aborted only during the
secondary call — the cycle consulted the secondary service and its
callback observes the abort. -/
theorem C6_aborted_no_effects (opts : Gc.Options) (st : Gc.CtrlState)
    (raw : String) (env : Gc.Env) :
    (env.abortedAtPrimaryEnd = true → env.abortedAtSecondaryEnd = true →
      (Gc.locate opts st raw env).calledPrimary = true →
      (Gc.locate opts st raw env).cache = st.cache ∧
      (Gc.locate opts st raw env).menuUpdated = false) ∧
    (env.abortedAtSecondaryEnd = true →
      (Gc.locate opts st raw env).calledSecondary = true →
      (Gc.locate opts st raw env).cache = st.cache ∧
      (Gc.locate opts st raw env).menuUpdated = false) := by
  constructor
  · intro h1 h2 h3
    revert h3
    unfold Gc.locate
    dsimp only
    split
    · intro h3
      exact absurd h3 (by simp)
    · split
      · intro h3
        exact absurd h3 (by simp)
      · split
        · intro h3
          exact absurd h3 (by simp)
        · intro _
          exact fetchPhase_aborted opts st _ env h1 h2
  · intro h2 hcs
    revert hcs
    unfold Gc.locate
    dsimp only
    split
    · intro hcs
      exact absurd hcs (by simp)
    · split
      · intro hcs
        exact absurd hcs (by simp)
      · split
        · intro hcs
          exact absurd hcs (by simp)
        · intro hcs
          exact fetchPhase_aborted_secondary opts st _ env h2 hcs

/-- C6 witness: both abort moments at concrete inputs — a cycle whose
token is already triggered at the primary callback (`envAustinAborted`),
and a cycle whose token is triggered only during the secondary call
(`envSecondaryAborted`, primary `[]`, secondary answering with a
candidate): each ends with the original cache and no menu update. -/
theorem C6_witness :
    envAustinAborted.abortedAtPrimaryEnd = true ∧
    envAustinAborted.abortedAtSecondaryEnd = true ∧
    (Gc.locate Gc.defaultEngineOptions emptyCtrl "austin"
      envAustinAborted).calledPrimary = true ∧
    (Gc.locate Gc.defaultEngineOptions emptyCtrl "austin"
      envAustinAborted).cache = emptyCtrl.cache ∧
    (Gc.locate Gc.defaultEngineOptions emptyCtrl "austin"
      envAustinAborted).menuUpdated = false ∧
    envSecondaryAborted.abortedAtPrimaryEnd = false ∧
    envSecondaryAborted.abortedAtSecondaryEnd = true ∧
    (Gc.locate Gc.defaultEngineOptions emptyCtrl "austin"
      envSecondaryAborted).calledSecondary = true ∧
    (Gc.locate Gc.defaultEngineOptions emptyCtrl "austin"
      envSecondaryAborted).cache = emptyCtrl.cache ∧
    (Gc.locate Gc.defaultEngineOptions emptyCtrl "austin"
      envSecondaryAborted).menuUpdated = false := by
  refine ⟨rfl, rfl, by decide, ?_, ?_, rfl, rfl, by decide, ?_, ?_⟩
  · exact ((C6_aborted_no_effects Gc.defaultEngineOptions emptyCtrl "austin"
      envAustinAborted).1 rfl rfl (by decide)).1
  · exact ((C6_aborted_no_effects Gc.defaultEngineOptions emptyCtrl "austin"
      envAustinAborted).1 rfl rfl (by decide)).2
  · exact ((C6_aborted_no_effects Gc.defaultEngineOptions emptyCtrl "austin"
      envSecondaryAborted).2 rfl (by decide)).1
  · exact ((C6_aborted_no_effects Gc.defaultEngineOptions emptyCtrl "austin"
      envSecondaryAborted).2 rfl (by decide)).2

theorem dictGet_dictSet {α : Type} (c : List (String × α)) (k : String)
    (v : α) : Js.dictGet (Js.dictSet c k v) k = some v := by
  unfold Js.dictGet Js.dictSet
  split
  · rename_i hfind
    induction c with
    | nil => simp at hfind
    | cons hd tl ih =>
      by_cases hk : hd.1 = k
      · simp [List.find?_cons, hk]
      · have htl : (List.find? (fun kv => decide (kv.1 = k)) tl).isSome = true := by
          simp only [List.find?_cons] at hfind
          simpa [hk] using hfind
        simpa [List.find?_cons, hk] using ih htl
  · rename_i hfind
    rw [List.find?_append]
    have hnone : c.find? (fun kv => decide (kv.1 = k)) = none := by
      cases h : c.find? (fun kv => decide (kv.1 = k)) with
      | none => rfl
      | some kv => rw [h] at hfind; simp at hfind
    rw [hnone]
    simp

/-- C1 counterexample: the claim says every non-aborted completed cycle
caches its resulting set — in particular that a primary `[]` with the
secondary disabled ends with an empty set *cached* under the query key.
With `include = "state postal"` (no GNIS, so no secondary) and the primary
answering `[]`, the cycle ends via `endLocate(false)`: empty suggestions,
menu updated, but the cache stays empty — the key is *not* cached. -/
theorem C1_counterexample :
    envEmptyPrimary.abortedAtPrimaryEnd = false ∧
    Gc.gnisIncluded optsNoGnis = false ∧
    Gc.locate optsNoGnis emptyCtrl "austin" envEmptyPrimary =
      { cache := [], suggestions := [], calledPrimary := true
        calledSecondary := false, menuUpdated := true } ∧
    Js.dictGet (Gc.locate optsNoGnis emptyCtrl "austin" envEmptyPrimary).cache
      (Gc.parseInput optsNoGnis "austin").cacheKey = none := by
  refine ⟨rfl, by decide, by decide, by decide⟩

/-- C1 (amended): a non-aborted cycle that reaches the fetch stage caches
its result only when it ends in a successful service response.  When the
primary service returns an empty array and the secondary service is
disabled by configuration (`include` without `'gnis'`), the cycle ends
with an empty suggestion set, an updated menu, and *no* cache write; when
the primary returns a non-empty array, the post-validation set (possibly
empty) *is* cached under the query's cache key. -/
theorem C1_caching_on_success_only (opts : Gc.Options) (st : Gc.CtrlState)
    (raw : String) (env : Gc.Env)
    (ha : env.abortedAtPrimaryEnd = false)
    (hshort : ¬ (Js.trim raw).length < opts.minCharacters)
    (hmiss : Js.dictGet st.cache (Gc.parseInput opts raw).cacheKey = none)
    (hll : (Gc.parseInput opts raw).latlon = none) :
    (env.primary = .arr [] → Gc.gnisIncluded opts = false →
      Gc.locate opts st raw env =
        { cache := st.cache, suggestions := [], calledPrimary := true
          calledSecondary := false, menuUpdated := true }) ∧
    (∀ items, env.primary = .arr items → items ≠ [] →
      Js.dictGet (Gc.locate opts st raw env).cache
          (Gc.parseInput opts raw).cacheKey =
        some (items.filterMap
          (Gc.getFeature opts (Gc.parseInput opts raw).states)) ∧
      (Gc.locate opts st raw env).suggestions =
        items.filterMap (Gc.getFeature opts (Gc.parseInput opts raw).states) ∧
      (Gc.locate opts st raw env).menuUpdated = true) := by
  have hloc : Gc.locate opts st raw env = Gc.fetchPhase opts st
      (Gc.parseInput opts raw) env := by
    unfold Gc.locate
    rw [if_neg hshort]
    dsimp only
    rw [hmiss, hll]
  constructor
  · intro hprim hgnis
    rw [hloc]
    unfold Gc.fetchPhase Gc.primaryCatch Gc.endLocate
    rw [hprim]
    simp [ha, hgnis]
  · intro items hprim hne
    rw [hloc]
    unfold Gc.fetchPhase Gc.endLocate
    rw [hprim]
    dsimp only
    rw [if_neg (show ¬ items.isEmpty = true by simp [List.isEmpty_iff, hne])]
    rw [if_neg (show ¬ env.abortedAtPrimaryEnd = true by simp [ha])]
    exact ⟨dictGet_dictSet st.cache _ _, rfl, rfl⟩

/-- C1 witness: instantiating both directions — the `"austin"` query under
`optsNoGnis` ends uncached, and the same query with a non-empty primary
response is cached with its validated feature. -/
theorem C1_witness :
    Gc.locate optsNoGnis emptyCtrl "austin" envEmptyPrimary =
      { cache := [], suggestions := [], calledPrimary := true
        calledSecondary := false, menuUpdated := true } ∧
    Js.dictGet (Gc.locate Gc.defaultEngineOptions emptyCtrl "austin"
        envAustin).cache
      (Gc.parseInput Gc.defaultEngineOptions "austin").cacheKey =
        some [featAustin] := by
  constructor
  · exact (C1_caching_on_success_only optsNoGnis emptyCtrl "austin"
      envEmptyPrimary rfl (by decide) (by decide) (by decide)).1 rfl (by decide)
  · have h := (C1_caching_on_success_only Gc.defaultEngineOptions emptyCtrl
      "austin" envAustin rfl (by decide) (by decide) (by decide)).2
      [rawAustin] rfl (by decide)
    rw [h.1]
    decide

/-- C5 counterexample: the claim says *every* input whose normalized term
parses as a coordinate is resolved by a single synthetic candidate with no
backend call.  With the state filter `tx` active, the 8-token coordinate
input still parses, but the synthetic candidate fails validation (its
absent `State` defaults to `''`, not in `["TX"]`), so the cycle falls
through to the primary backend request. -/
theorem C5_counterexample :
    (Gc.parseInput optsTx coordInput).latlon =
      some (44964798/1000000, -93240967/1000000) ∧
    (Gc.locate optsTx emptyCtrl coordInput envEmptyPrimary).calledPrimary =
      true := by
  refine ⟨by decide, by decide⟩

/-- C5 (amended): when the resolution cycle reaches the coordinate branch
(enough characters, no cache hit), the normalized term parses as a
coordinate, *and the synthesized candidate passes validation*, the cycle
surfaces exactly that single candidate and completes without calling
either backend; when the synthetic candidate fails validation the cycle
falls through to the backend query instead. -/
theorem C5_latlon_bypass (opts : Gc.Options) (st : Gc.CtrlState)
    (raw : String) (env : Gc.Env) (la lo : ℚ) (f : Gc.FeatProps)
    (hshort : ¬ (Js.trim raw).length < opts.minCharacters)
    (hmiss : Js.dictGet st.cache (Gc.parseInput opts raw).cacheKey = none)
    (hll : (Gc.parseInput opts raw).latlon = some (la, lo)) :
    (Gc.getFeature opts (Gc.parseInput opts raw).states (Gc.latlonRaw la lo) =
        some f →
      Gc.locate opts st raw env =
        { cache := st.cache, suggestions := [f], calledPrimary := false
          calledSecondary := false, menuUpdated := true }) ∧
    (Gc.getFeature opts (Gc.parseInput opts raw).states (Gc.latlonRaw la lo) =
        none →
      Gc.locate opts st raw env = Gc.fetchPhase opts st
        (Gc.parseInput opts raw) env) := by
  constructor
  · intro hfeat
    unfold Gc.locate
    rw [if_neg hshort]
    dsimp only
    rw [hmiss, hll]
    dsimp only
    rw [hfeat]
  · intro hfeat
    unfold Gc.locate
    rw [if_neg hshort]
    dsimp only
    rw [hmiss, hll]
    dsimp only
    rw [hfeat]

/-- C5 witness: the spec scenario — 8-token input
`"44 57 53.2728 N 93 14 27.4812 W"` under default options resolves to the
single synthetic candidate with `Source = "latlon"` at
`(44.964798, -93.240967)`, with no backend called. -/
theorem C5_witness :
    Gc.locate Gc.defaultEngineOptions emptyCtrl coordInput envEmptyPrimary =
      { cache := [], suggestions := [coordFeat], calledPrimary := false
        calledSecondary := false, menuUpdated := true } ∧
    coordFeat.Source = "latlon" ∧
    coordFeat.Latitude = 44964798/1000000 ∧
    coordFeat.Longitude = -93240967/1000000 := by
  refine ⟨?_, rfl, by decide, by decide⟩
  exact (C5_latlon_bypass Gc.defaultEngineOptions emptyCtrl coordInput
    envEmptyPrimary (44964798/1000000) (-93240967/1000000) coordFeat
    (by decide) (by decide) (by decide)).1 (by decide)

theorem le_jsRound_of_minScore {q : ℚ} (h : Gc.minScore ≤ q) :
    (80 : ℤ) ≤ Js.jsRound q := by
  unfold Js.jsRound
  rw [round_eq, Int.le_floor]
  have hq : (80 : ℚ) ≤ q := by
    unfold Gc.minScore at h
    exact_mod_cast h
  push_cast
  linarith

/-- C8 counterexample: the claim says every surfaced candidate's latitude
lies within the configured bounds.  Validation tests the *raw* latitude,
but the surfaced value is rounded to 6 decimals afterwards: with
`latMax = 0.00000055` and raw latitude `0.00000054` (in bounds), the
surfaced candidate carries latitude `0.000001 > latMax`. -/
theorem C8_counterexample :
    optsTinyBound.bounds = some (-90, -180, 11/20000000, 180) ∧
    rawTinyLat.Latitude = some (27/50000000) ∧
    (27/50000000 : ℚ) ≤ 11/20000000 ∧
    (Gc.locate optsTinyBound emptyCtrl "aus" envTinyLat).suggestions =
      [featTinyLat] ∧
    (Gc.locate optsTinyBound emptyCtrl "aus" envTinyLat).menuUpdated = true ∧
    featTinyLat.Latitude = 1/1000000 ∧
    (11/20000000 : ℚ) < featTinyLat.Latitude := by
  refine ⟨rfl, rfl, by norm_num, by decide, by decide, by decide, by decide⟩

/-- C8 (amended): every candidate accepted by the validator comes from a
raw record whose latitude and longitude are present and within the
configured bounds and whose (default-100) score meets the minimum; the
surfaced coordinates are the 6-decimal roundings of those raw values (so
they lie within the bounds enlarged by `5·10⁻⁷`, but — see the
counterexample — not always within the bounds themselves), the surfaced
score is at least the minimum, and the required `Name`/`Source`/`Type`
fields are non-empty; records missing a required field, out of bounds, or
below the score minimum are dropped entirely (the validator returns no
feature). -/
theorem C8_validator_guarantees :
    (∀ (opts : Gc.Options) (inputStates : Option String) (p : Gc.RawProps)
        (f : Gc.FeatProps), Gc.getFeature opts inputStates p = some f →
      ∃ lat0 lon0,
        p.Latitude = some lat0 ∧ p.Longitude = some lon0 ∧
        (opts.bounds.getD (-90, -180, 90, 180)).1 ≤ lat0 ∧
        lat0 ≤ (opts.bounds.getD (-90, -180, 90, 180)).2.2.1 ∧
        (opts.bounds.getD (-90, -180, 90, 180)).2.1 ≤ lon0 ∧
        lon0 ≤ (opts.bounds.getD (-90, -180, 90, 180)).2.2.2 ∧
        f.Latitude = Gc.roundCoord lat0 ∧ f.Longitude = Gc.roundCoord lon0 ∧
        |f.Latitude - lat0| ≤ 1/2000000 ∧ |f.Longitude - lon0| ≤ 1/2000000 ∧
        Gc.minScore ≤ p.Score.getD 100 ∧ (80 : ℤ) ≤ f.Score ∧
        f.Name ≠ "" ∧ f.Source ≠ "" ∧ f.Typ ≠ "") ∧
    (∀ (opts : Gc.Options) (inputStates : Option String) (p : Gc.RawProps),
      p.Latitude = none → Gc.getFeature opts inputStates p = none) ∧
    (∀ (opts : Gc.Options) (inputStates : Option String) (p : Gc.RawProps),
      Js.trim (p.Name.getD "") = "" → Gc.getFeature opts inputStates p = none) ∧
    (∀ (opts : Gc.Options) (inputStates : Option String) (p : Gc.RawProps),
      p.Score.getD 100 < Gc.minScore → Gc.getFeature opts inputStates p = none) ∧
    (∀ (opts : Gc.Options) (inputStates : Option String) (p : Gc.RawProps)
        (lat0 : ℚ), p.Latitude = some lat0 →
      lat0 < (opts.bounds.getD (-90, -180, 90, 180)).1 →
      Gc.getFeature opts inputStates p = none) := by
  refine ⟨?_, ?_, ?_, ?_, ?_⟩
  · intro opts inputStates p f h
    unfold Gc.getFeature at h
    split at h
    · rename_i hvalid
      have hf : f = Gc.featBuild p := (Option.some.inj h).symm
      unfold Gc.featValid at hvalid
      simp only [Bool.and_eq_true, bne_iff_ne, ne_eq, decide_eq_true_eq]
        at hvalid
      obtain ⟨⟨⟨⟨⟨⟨hlat, hlon⟩, hscore⟩, _⟩, hname⟩, hsource⟩, htyp⟩ := hvalid
      cases hplat : p.Latitude with
      | none => rw [hplat] at hlat; exact absurd hlat (by simp)
      | some lat0 =>
        cases hplon : p.Longitude with
        | none => rw [hplon] at hlon; exact absurd hlon (by simp)
        | some lon0 =>
          rw [hplat] at hlat
          rw [hplon] at hlon
          simp only [Bool.and_eq_true, decide_eq_true_eq] at hlat hlon
          have hfl : f.Latitude = Gc.roundCoord lat0 := by
            rw [hf]; unfold Gc.featBuild; simp [hplat]
          have hflo : f.Longitude = Gc.roundCoord lon0 := by
            rw [hf]; unfold Gc.featBuild; simp [hplon]
          refine ⟨lat0, lon0, rfl, rfl, hlat.1, hlat.2, hlon.1, hlon.2,
            hfl, hflo, ?_, ?_, hscore, ?_, ?_, ?_, ?_⟩
          · rw [hfl]; exact abs_roundCoord_sub_le lat0
          · rw [hflo]; exact abs_roundCoord_sub_le lon0
          · rw [hf]; unfold Gc.featBuild; simp only
            exact le_jsRound_of_minScore hscore
          · rw [hf]; unfold Gc.featBuild; simp only; exact hname
          · rw [hf]; unfold Gc.featBuild; simp only; exact hsource
          · rw [hf]; unfold Gc.featBuild; simp only; exact htyp
    · exact Option.noConfusion h
  · intro opts inputStates p hplat
    have hv : Gc.featValid opts inputStates p = false := by
      unfold Gc.featValid
      simp [hplat]
    unfold Gc.getFeature
    rw [hv]
    rfl
  · intro opts inputStates p hname
    have hv : Gc.featValid opts inputStates p = false := by
      unfold Gc.featValid
      simp [hname]
    unfold Gc.getFeature
    rw [hv]
    rfl
  · intro opts inputStates p hscore
    have hv : Gc.featValid opts inputStates p = false := by
      unfold Gc.featValid
      simp [not_le.mpr hscore]
    unfold Gc.getFeature
    rw [hv]
    rfl
  · intro opts inputStates p lat0 hplat hlt
    have hv : Gc.featValid opts inputStates p = false := by
      unfold Gc.featValid
      simp [hplat, not_le.mpr hlt]
    unfold Gc.getFeature
    rw [hv]
    rfl

/-- C8 witness: instantiating the acceptance guarantees on the validated
Austin record under default options. -/
theorem C8_witness :
    ∃ lat0 lon0,
      rawAustin.Latitude = some lat0 ∧ rawAustin.Longitude = some lon0 ∧
      (Gc.defaultEngineOptions.bounds.getD (-90, -180, 90, 180)).1 ≤ lat0 ∧
      lat0 ≤ (Gc.defaultEngineOptions.bounds.getD (-90, -180, 90, 180)).2.2.1 ∧
      (Gc.defaultEngineOptions.bounds.getD (-90, -180, 90, 180)).2.1 ≤ lon0 ∧
      lon0 ≤ (Gc.defaultEngineOptions.bounds.getD (-90, -180, 90, 180)).2.2.2 ∧
      featAustin.Latitude = Gc.roundCoord lat0 ∧
      featAustin.Longitude = Gc.roundCoord lon0 ∧
      |featAustin.Latitude - lat0| ≤ 1/2000000 ∧
      |featAustin.Longitude - lon0| ≤ 1/2000000 ∧
      Gc.minScore ≤ rawAustin.Score.getD 100 ∧ (80 : ℤ) ≤ featAustin.Score ∧
      featAustin.Name ≠ "" ∧ featAustin.Source ≠ "" ∧ featAustin.Typ ≠ "" :=
  C8_validator_guarantees.1 Gc.defaultEngineOptions none rawAustin featAustin
    (by decide)

end ClaimTheorems
